import Mathlib

/-!
Verification of the record store, the authentication helpers and the
aggregation logic of `src/dashboard.py`, a Streamlit personal-finance
dashboard backed by Google Sheets through gspread.

The backing spreadsheet is modelled as an association list from worksheet
titles to worksheet contents.  A worksheet whose `get_all_records` read
succeeds is `WsContent.readable grid` where `grid` is the raw cell grid
(first row is the header); a worksheet whose read raises is
`WsContent.corrupt`.  gspread's `add_worksheet` fails when a worksheet with
the requested title already exists, and `sheet.worksheet` fails when it does
not; both failures, and Python exceptions generally, are modelled with
`Except`.

External collaborators that the dashboard only calls through an opaque
interface are abstracted as function parameters: the textual rendering
performed by pandas `astype(str)` (`pyStr`), Python's `float` (`pyFloat`),
pandas `to_datetime` with `errors="coerce"` (`toDT`, `none` standing for
`NaT`), and bcrypt's salt-validity test and password-match test
(`validHash`, `matchpw`).  Calendar dates are modelled as integers (day
numbers), and numbers as rationals.
-/

namespace PBD

/-- A cell value held in an in-memory pandas DataFrame: either text or a
number.  gspread's `get_all_records` numericises numeric-looking cells. -/
inductive Value where
  | str (s : String)
  | num (q : ℚ)
deriving DecidableEq, Repr

/-- Decimal reading of a digit string. -/
def digitsToNat (cs : List Char) : Nat :=
  cs.foldl (fun acc c => 10 * acc + (c.toNat - 48)) 0

/-- Reading an optionally-signed integer literal from a character list. -/
def parseIntChars : List Char → Option Int
  | [] => none
  | '-' :: rest =>
    if rest ≠ [] ∧ rest.all Char.isDigit then some (-(digitsToNat rest : Int)) else none
  | cs =>
    if cs.all Char.isDigit then some (digitsToNat cs : Int) else none

/-- Type inference applied by `get_all_records` to a raw cell: integer
literals become numbers, everything else stays text. -/
def inferCell (s : String) : Value :=
  match parseIntChars s.data with
  | some n => Value.num (n : ℚ)
  | none => Value.str s

/-- An in-memory pandas DataFrame: a column list and rows of cells aligned
with the columns. -/
structure DataFrame where
  cols : List String
  rows : List (List Value)
deriving DecidableEq, Repr

/-- The raw cell grid of a worksheet; the first row, when data rows follow,
is the header. -/
abbrev Grid := List (List String)

/-- The state of one worksheet of the backing spreadsheet. -/
inductive WsContent where
  | readable (grid : Grid)
  | corrupt
deriving DecidableEq, Repr

/-- The backing spreadsheet: worksheet titles mapped to contents. -/
abbrev Store := List (String × WsContent)

/-- Look a worksheet up by title, as `sheet.worksheet` does. -/
def findWs (store : Store) (name : String) : Option WsContent :=
  (store.find? (fun p => p.1 == name)).map Prod.snd

/-- Replace the content of the named worksheet, leaving the rest of the
spreadsheet unchanged. -/
def setWs (store : Store) (name : String) (c : WsContent) : Store :=
  store.map (fun p => if p.1 == name then (p.1, c) else p)

/-- gspread pads or truncates each record to the header length, filling
missing cells with the empty string. -/
def padTo (n : Nat) (r : List String) : List String :=
  r.take n ++ List.replicate (n - r.length) ""

/-- `pd.DataFrame(ws.get_all_records())`: with no data row beyond the header
the record list is empty and the DataFrame has no columns; otherwise the
columns are the header and each record is padded and numericised. -/
def getAllRecords : Grid → DataFrame
  | [] => ⟨[], []⟩
  | [_] => ⟨[], []⟩
  | header :: data => ⟨header, data.map (fun r => (padTo header.length r).map inferCell)⟩

/-- `ws.update([row])` writes one row starting at A1: it overwrites the
first `row.length` cells of row 1 and leaves everything else in place. -/
def updateRow1 (grid : Grid) (row : List String) : Grid :=
  match grid with
  | [] => [row]
  | r :: rest => (row ++ r.drop row.length) :: rest

def EXPECTED_USERS_COLS : List String := ["Email", "Password", "Total_Budget"]

def EXPECTED_TRANSACTIONS_COLS : List String := ["User", "Tanggal", "Kategori", "Jumlah"]

def EXPECTED_REVIEWS_COLS : List String := ["Name", "Email", "Rating", "Review", "Time"]

/-- `load_or_create_google_sheet(sheet_name, expected_cols)` from
`src/dashboard.py` lines 108-119.  The `try` body looks the worksheet up and
reads it; when the resulting DataFrame is empty it is replaced by an empty
canonical DataFrame and the canonical header is written to row 1.  The bare
`except` catches both a missing worksheet and a failing read, and calls
`sheet.add_worksheet` with the same title: that call succeeds only when no
worksheet of that title exists, so a corrupt existing worksheet makes the
recovery path itself raise. -/
def load_or_create_google_sheet (store : Store) (sheet_name : String)
    (expected_cols : List String) : Except String (DataFrame × Store) :=
  match findWs store sheet_name with
  | some (WsContent.readable grid) =>
    let df := getAllRecords grid
    if df.rows.isEmpty then
      Except.ok (⟨expected_cols, []⟩,
        setWs store sheet_name (WsContent.readable (updateRow1 grid expected_cols)))
    else
      Except.ok (df, store)
  | some WsContent.corrupt =>
    Except.error "add_worksheet: a sheet with that title already exists"
  | none =>
    Except.ok (⟨expected_cols, []⟩,
      (sheet_name, WsContent.readable [expected_cols]) :: store)

/-- `save_google_sheet(df, sheet_name)` from `src/dashboard.py` lines
121-125: look the worksheet up (raising when absent), stringify every cell
with `astype(str)`, clear the worksheet, and write the header row followed
by the stringified rows.  `pyStr` abstracts the Python `str` rendering of a
cell. -/
def save_google_sheet (pyStr : Value → String) (store : Store) (df : DataFrame)
    (sheet_name : String) : Except String Store :=
  match findWs store sheet_name with
  | none => Except.error "WorksheetNotFound"
  | some _ =>
    Except.ok (setWs store sheet_name
      (WsContent.readable (df.cols :: df.rows.map (fun r => r.map pyStr))))

/-- Model of `bcrypt.checkpw`: when the stored string is not a well-formed
bcrypt hash it raises `ValueError("Invalid salt")`; otherwise it reports
whether the password matches.  `validHash` abstracts well-formedness and
`matchpw` the constant-time comparison. -/
def bcrypt_checkpw (validHash : String → Bool) (matchpw : String → String → Bool)
    (password hashed : String) : Except String Bool :=
  if validHash hashed then Except.ok (matchpw password hashed)
  else Except.error "Invalid salt"

/-- `verify_password(password, hashed)` from `src/dashboard.py` lines
130-131: a direct call to `bcrypt.checkpw` with no exception handling, so
whatever bcrypt raises propagates to the caller. -/
def verify_password (validHash : String → Bool) (matchpw : String → String → Bool)
    (password hashed : String) : Except String Bool :=
  bcrypt_checkpw validHash matchpw password hashed

/-- A row of the Users table, with the canonical columns of
`EXPECTED_USERS_COLS`. -/
structure UserRow where
  Email : String
  Password : String
  Total_Budget : Value
deriving DecidableEq, Repr

/-- The observable effect of one press of the signup button: the warning
shown (when any), whether `save_google_sheet` was called, and the Users
table as persisted afterwards. -/
structure SignupEffect where
  warning : Option String
  savedToStore : Bool
  users : List UserRow
deriving DecidableEq, Repr

/-- The signup handler from `src/dashboard.py` lines 193-204: a blank email
or password is warned about first; then an email already present in the
`Email` column is warned about; only otherwise is the password hashed, the
row appended and the table saved.  `hashpw` abstracts `bcrypt.hashpw` with a
fresh salt. -/
def signup_submit (hashpw : String → String) (users : List UserRow)
    (email password : String) (total_budget : ℚ) : SignupEffect :=
  if email = "" ∨ password = "" then
    ⟨some "Mohon isi email dan password.", false, users⟩
  else if email ∈ users.map UserRow.Email then
    ⟨some "Email sudah terdaftar.", false, users⟩
  else
    ⟨none, true, users ++ [⟨email, hashpw password, Value.num total_budget⟩]⟩

/-- A row of the Transactions table, with the canonical columns of
`EXPECTED_TRANSACTIONS_COLS`.  The amount is signed: positive is expense,
negative is income. -/
structure TxRow where
  User : String
  Tanggal : String
  Kategori : String
  Jumlah : ℚ
deriving DecidableEq, Repr

/-- `df[df["User"] == user]` — the session user's transactions, by exact
string match (line 231). -/
def user_data (df : List TxRow) (user : String) : List TxRow :=
  df.filter (fun r => r.User == user)

/-- `user_data[user_data["Jumlah"] > 0]["Jumlah"].sum()` — total expense
(line 265). -/
def pengeluaran (rows : List TxRow) : ℚ :=
  ((rows.filter (fun r => 0 < r.Jumlah)).map TxRow.Jumlah).sum

/-- `abs(user_data[user_data["Jumlah"] < 0]["Jumlah"].sum())` — total income
(line 266). -/
def pemasukan (rows : List TxRow) : ℚ :=
  |((rows.filter (fun r => r.Jumlah < 0)).map TxRow.Jumlah).sum|

/-- `sisa = pemasukan - pengeluaran` (line 267). -/
def sisa (rows : List TxRow) : ℚ :=
  pemasukan rows - pengeluaran rows

/-- Lines 274-275: the `Tanggal` column is re-parsed with
`pd.to_datetime(..., errors="coerce")` and the amounts are summed with
`groupby("Tanggal")["Jumlah"].sum()`.  With pandas defaults the grouping
drops the `NaT` key and sorts the remaining keys ascending, so the result
lists each distinct successfully-parsed date in ascending order with the sum
of the amounts of the rows parsing to it. -/
def daily_summary (toDT : String → Option ℤ) (rows : List TxRow) : List (ℤ × ℚ) :=
  (((rows.filterMap (fun r => toDT r.Tanggal)).dedup).insertionSort (· ≤ ·)).map
    (fun d => (d, ((rows.filter (fun r => toDT r.Tanggal == some d)).map TxRow.Jumlah).sum))

/-- Lines 233-236: the session user's budget is
`float(users_df.loc[users_df["Email"] == user, "Total_Budget"].iloc[0])`
inside a bare `try`/`except` defaulting to `0`.  `iloc[0]` raises when no
row matches, and `float` raises when the cell does not parse; either way the
bare except yields `0`. -/
def total_budget_of (pyFloat : Value → Option ℚ) (users : List UserRow)
    (user : String) : ℚ :=
  match (users.filter (fun r => r.Email == user)).head? with
  | none => 0
  | some r =>
    match pyFloat r.Total_Budget with
    | none => 0
    | some q => q

/-- Modelled from the spec: no overspend computation exists anywhere in
`src/dashboard.py`; spec section 4.3 defines the signal as
`expense > 0.8 * totalBudget` when `totalBudget > 0`, suppressed when the
budget is zero or unset. -/
def overspend_signal (totalBudget expense : ℚ) : Bool :=
  decide (0 < totalBudget) && decide ((4 / 5 : ℚ) * totalBudget < expense)

/-- The worked example of spec section 8 item 6: three transactions of one
user with amounts 5000, -2000 and 3000. -/
def exTx : List TxRow :=
  [⟨"u@x", "2025-01-01", "Makanan", 5000⟩,
   ⟨"u@x", "2025-01-02", "Gaji", -2000⟩,
   ⟨"u@x", "2025-01-03", "Transportasi", 3000⟩]

/-- A one-row DataFrame used to exercise `save_google_sheet` concretely. -/
def dfW : DataFrame := ⟨["Email"], [[Value.num 5]]⟩

theorem findWs_setWs (store : Store) (name : String) (c0 c : WsContent)
    (h : findWs store name = some c0) :
    findWs (setWs store name c) name = some c := by
  induction store with
  | nil => simp [findWs] at h
  | cons p rest ih =>
    by_cases hp : (p.1 == name) = true
    · show (List.find? (fun q => q.1 == name)
          ((if (p.1 == name) = true then (p.1, c) else p) :: setWs rest name c)).map
            Prod.snd = some c
      rw [if_pos hp,
        @List.find?_cons_of_pos _ (fun q => q.1 == name) (p.1, c) (setWs rest name c) hp]
      rfl
    · have h2 : findWs rest name = some c0 := by
        unfold findWs at h
        rw [@List.find?_cons_of_neg _ (fun q => q.1 == name) p rest hp] at h
        exact h
      show (List.find? (fun q => q.1 == name)
          ((if (p.1 == name) = true then (p.1, c) else p) :: setWs rest name c)).map
            Prod.snd = some c
      rw [if_neg hp,
        @List.find?_cons_of_neg _ (fun q => q.1 == name) p (setWs rest name c) hp]
      exact ih h2

/-- Claim C4 (confirmed): when the backing table does not exist, Load returns
an empty DataFrame whose columns are exactly the canonical list, and the
backing store now holds that table with exactly the canonical header row. -/
theorem C4_load_missing (store : Store) (name : String) (cols : List String)
    (h : findWs store name = none) :
    load_or_create_google_sheet store name cols =
      Except.ok (⟨cols, []⟩, (name, WsContent.readable [cols]) :: store)
    ∧ findWs ((name, WsContent.readable [cols]) :: store) name =
        some (WsContent.readable [cols]) := by
  constructor
  · unfold load_or_create_google_sheet
    rw [h]
  · simp [findWs, List.find?_cons]

/-- Witness for C4 at the concrete empty store and the Transactions table. -/
theorem C4_load_missing_witness :
    load_or_create_google_sheet [] "Transactions" EXPECTED_TRANSACTIONS_COLS =
      Except.ok (⟨EXPECTED_TRANSACTIONS_COLS, []⟩,
        [("Transactions", WsContent.readable [EXPECTED_TRANSACTIONS_COLS])]) :=
  (C4_load_missing [] "Transactions" EXPECTED_TRANSACTIONS_COLS rfl).1

/-- Claim C1 is refuted: a Users worksheet whose header is the single ad-hoc
column Foo is returned by Load with columns equal to Foo only, not the
canonical Users columns — no normalization is applied on the way out. -/
theorem C1_counterexample :
    load_or_create_google_sheet [("Users", WsContent.readable [["Foo"], ["bar"]])]
        "Users" EXPECTED_USERS_COLS =
      Except.ok (⟨["Foo"], [[Value.str "bar"]]⟩,
        [("Users", WsContent.readable [["Foo"], ["bar"]])])
    ∧ (["Foo"] : List String) ≠ EXPECTED_USERS_COLS := by
  exact ⟨rfl, by decide⟩

/-- Claim C1 (corrected): the table returned by Load has the canonical
columns exactly when the backing table is missing or has no data rows; when
the source has data rows the table is returned unchanged and its columns are
the source's own header, whatever it was. -/
theorem C1_amended (store : Store) (name : String) (cols : List String) :
    (findWs store name = none →
      load_or_create_google_sheet store name cols =
        Except.ok (⟨cols, []⟩, (name, WsContent.readable [cols]) :: store))
  ∧ (∀ grid, findWs store name = some (WsContent.readable grid) →
      (getAllRecords grid).rows = [] →
      load_or_create_google_sheet store name cols =
        Except.ok (⟨cols, []⟩,
          setWs store name (WsContent.readable (updateRow1 grid cols))))
  ∧ (∀ header row rest,
      findWs store name = some (WsContent.readable (header :: row :: rest)) →
      load_or_create_google_sheet store name cols =
        Except.ok (getAllRecords (header :: row :: rest), store)
      ∧ (getAllRecords (header :: row :: rest)).cols = header) := by
  refine ⟨fun h => ?_, fun grid h h2 => ?_, fun header row rest h => ⟨?_, rfl⟩⟩
  · unfold load_or_create_google_sheet
    rw [h]
  · unfold load_or_create_google_sheet
    rw [h]
    simp [h2]
  · unfold load_or_create_google_sheet
    rw [h]
    rfl

/-- Witness for C1 at a concrete one-row worksheet: the returned columns are
the source header. -/
theorem C1_amended_witness :
    load_or_create_google_sheet [("Users", WsContent.readable [["Email"], ["x"]])]
        "Users" EXPECTED_USERS_COLS =
      Except.ok (getAllRecords [["Email"], ["x"]],
        [("Users", WsContent.readable [["Email"], ["x"]])])
    ∧ (getAllRecords [["Email"], ["x"]]).cols = ["Email"] :=
  (C1_amended [("Users", WsContent.readable [["Email"], ["x"]])] "Users"
    EXPECTED_USERS_COLS).2.2 ["Email"] ["x"] [] rfl

/-- Claim C5 is refuted: on a worksheet that exists but whose read fails,
Load raises instead of self-healing, because its bare-except recovery calls
add_worksheet with the already-used title. -/
theorem C5_counterexample :
    load_or_create_google_sheet [("Users", WsContent.corrupt)] "Users"
        EXPECTED_USERS_COLS =
      Except.error "add_worksheet: a sheet with that title already exists" := rfl

/-- Claim C5 (corrected): Load never raises when the backing table is
missing or its read succeeds, but when the table exists and its read fails
the recovery path tries to create a worksheet with the existing title and
the resulting error propagates to the caller. -/
theorem C5_amended (store : Store) (name : String) (cols : List String) :
    (findWs store name = none ∨
        (∃ g, findWs store name = some (WsContent.readable g)) →
      ∃ out, load_or_create_google_sheet store name cols = Except.ok out)
  ∧ (findWs store name = some WsContent.corrupt →
      load_or_create_google_sheet store name cols =
        Except.error "add_worksheet: a sheet with that title already exists") := by
  constructor
  · rintro (h | ⟨g, h⟩)
    · exact ⟨_, by unfold load_or_create_google_sheet; rw [h]⟩
    · unfold load_or_create_google_sheet
      rw [h]
      dsimp only
      split
      · exact ⟨_, rfl⟩
      · exact ⟨_, rfl⟩
  · intro h
    unfold load_or_create_google_sheet
    rw [h]

/-- Witness for C5 at a concrete corrupt worksheet. -/
theorem C5_amended_witness :
    load_or_create_google_sheet [("T", WsContent.corrupt)] "T" ["A"] =
      Except.error "add_worksheet: a sheet with that title already exists" :=
  (C5_amended [("T", WsContent.corrupt)] "T" ["A"]).2 rfl

/-- Claim C7 (confirmed): Save writes the full table back to the named
worksheet, fully replacing its prior contents with the header row followed
by the rows, every cell first rendered to text. -/
theorem C7_save_replaces (pyStr : Value → String) (store : Store)
    (df : DataFrame) (name : String) (c : WsContent)
    (h : findWs store name = some c) :
    save_google_sheet pyStr store df name =
      Except.ok (setWs store name
        (WsContent.readable (df.cols :: df.rows.map (fun r => r.map pyStr))))
    ∧ findWs (setWs store name
        (WsContent.readable (df.cols :: df.rows.map (fun r => r.map pyStr)))) name =
      some (WsContent.readable (df.cols :: df.rows.map (fun r => r.map pyStr))) := by
  constructor
  · unfold save_google_sheet
    rw [h]
  · exact findWs_setWs store name c _ h

/-- Witness for C7 at a concrete one-cell DataFrame and a concrete
stringifier. -/
theorem C7_save_replaces_witness :
    save_google_sheet (fun _ => "5") [("Users", WsContent.readable [])] dfW "Users" =
      Except.ok (setWs [("Users", WsContent.readable [])] "Users"
        (WsContent.readable (dfW.cols :: dfW.rows.map (fun r => r.map (fun _ => "5"))))) :=
  (C7_save_replaces (fun _ => "5") [("Users", WsContent.readable [])] dfW "Users"
    (WsContent.readable []) rfl).1

theorem jumlah_filter_map (rows : List TxRow) (p : ℚ → Bool) :
    (rows.filter (fun r => p r.Jumlah)).map TxRow.Jumlah =
      (rows.map TxRow.Jumlah).filter p := by
  induction rows with
  | nil => rfl
  | cons r rest ih =>
    by_cases h : p r.Jumlah = true
    · simp [List.filter_cons, h, ih]
    · simp [List.filter_cons, h, ih]

/-- Claim C2 (confirmed): for the session user's transactions the summary
computes expense as the sum of the positive amounts, income as the absolute
value of the sum of the negative amounts and remaining as income minus
expense; on the amounts 5000, -2000 and 3000 this gives expense 8000,
income 2000 and remaining -6000. -/
theorem C2_summarize :
    (∀ (df : List TxRow) (user : String),
      pengeluaran (user_data df user) =
        (((user_data df user).map TxRow.Jumlah).filter (fun a => decide (0 < a))).sum
      ∧ pemasukan (user_data df user) =
        |(((user_data df user).map TxRow.Jumlah).filter (fun a => decide (a < 0))).sum|
      ∧ sisa (user_data df user) =
        pemasukan (user_data df user) - pengeluaran (user_data df user))
    ∧ pengeluaran (user_data exTx "u@x") = 8000
    ∧ pemasukan (user_data exTx "u@x") = 2000
    ∧ sisa (user_data exTx "u@x") = -6000 := by
  have hex : pengeluaran (user_data exTx "u@x") = 8000 := by
    norm_num [pengeluaran, user_data, exTx, List.filter_cons]
  have hin : pemasukan (user_data exTx "u@x") = 2000 := by
    norm_num [pemasukan, user_data, exTx, List.filter_cons]
  refine ⟨fun df user => ⟨?_, ?_, rfl⟩, hex, hin, ?_⟩
  · exact congrArg List.sum (jumlah_filter_map (user_data df user) (fun a => decide (0 < a)))
  · exact congrArg (fun l => |List.sum l|)
      (jumlah_filter_map (user_data df user) (fun a => decide (a < 0)))
  · unfold sisa
    rw [hex, hin]
    norm_num

/-- Claim C3 (confirmed): a signup request whose email is already present,
or whose email or password is blank, produces a user-facing warning, calls
no save, and leaves the Users table unchanged. -/
theorem C3_signup_reject (hashpw : String → String) (users : List UserRow)
    (email password : String) (tb : ℚ)
    (h : email ∈ users.map UserRow.Email ∨ email = "" ∨ password = "") :
    (signup_submit hashpw users email password tb).warning.isSome = true
    ∧ (signup_submit hashpw users email password tb).savedToStore = false
    ∧ (signup_submit hashpw users email password tb).users = users := by
  unfold signup_submit
  by_cases h1 : email = "" ∨ password = ""
  · rw [if_pos h1]
    exact ⟨rfl, rfl, rfl⟩
  · have h2 : email ∈ users.map UserRow.Email := by tauto
    rw [if_neg h1, if_pos h2]
    exact ⟨rfl, rfl, rfl⟩

/-- Witness for C3 at a concrete duplicate email. -/
theorem C3_signup_reject_witness :
    (signup_submit (fun s => s) [⟨"a@b.c", "h", Value.num 0⟩] "a@b.c" "pw" 0).warning.isSome
        = true
    ∧ (signup_submit (fun s => s) [⟨"a@b.c", "h", Value.num 0⟩] "a@b.c" "pw" 0).users =
        [⟨"a@b.c", "h", Value.num 0⟩] :=
  ⟨(C3_signup_reject (fun s => s) [⟨"a@b.c", "h", Value.num 0⟩] "a@b.c" "pw" 0
      (Or.inl (by simp))).1,
   (C3_signup_reject (fun s => s) [⟨"a@b.c", "h", Value.num 0⟩] "a@b.c" "pw" 0
      (Or.inl (by simp))).2.2⟩

/-- Claim C6 is refuted: on a stored string that is not a well-formed bcrypt
hash, verify_password raises the underlying Invalid salt error instead of
returning false. -/
theorem C6_counterexample :
    (fun s => s == "$2b$12$wellformed") "garbage" = false
    ∧ verify_password (fun s => s == "$2b$12$wellformed") (fun _ _ => false)
        "pw" "garbage" = Except.error "Invalid salt"
    ∧ verify_password (fun s => s == "$2b$12$wellformed") (fun _ _ => false)
        "pw" "garbage" ≠ Except.ok false := by
  refine ⟨rfl, rfl, by simp [verify_password, bcrypt_checkpw]⟩

/-- Claim C6 (corrected): verify_password returns the bcrypt comparison
result when the stored string is a well-formed hash, but when it is not the
bcrypt error propagates to the caller uncaught. -/
theorem C6_amended (validHash : String → Bool) (matchpw : String → String → Bool)
    (password hashed : String) :
    (validHash hashed = false →
      verify_password validHash matchpw password hashed = Except.error "Invalid salt")
    ∧ (validHash hashed = true →
      verify_password validHash matchpw password hashed =
        Except.ok (matchpw password hashed)) := by
  constructor
  · intro h
    simp [verify_password, bcrypt_checkpw, h]
  · intro h
    simp [verify_password, bcrypt_checkpw, h]

/-- Witness for C6 at a concrete malformed stored string. -/
theorem C6_amended_witness :
    verify_password (fun s => s == "$2b$12$wellformed") (fun _ _ => false)
      "pw" "garbage" = Except.error "Invalid salt" :=
  (C6_amended (fun s => s == "$2b$12$wellformed") (fun _ _ => false) "pw" "garbage").1 rfl

/-- Claim C8 (confirmed): the per-date series of the session user's
transactions lists distinct dates only, in ascending order; a date appears
exactly when some row of the filtered set parses to it, so rows whose date
fails to parse feed no bucket; and the figure at each date is the sum of the
amounts of the rows parsing to that date. -/
theorem C8_daily_summary (toDT : String → Option ℤ) (df : List TxRow) (user : String) :
    ((daily_summary toDT (user_data df user)).map Prod.fst).Sorted (· ≤ ·)
    ∧ ((daily_summary toDT (user_data df user)).map Prod.fst).Nodup
    ∧ (∀ d : ℤ, d ∈ (daily_summary toDT (user_data df user)).map Prod.fst ↔
        ∃ r, r ∈ user_data df user ∧ toDT r.Tanggal = some d)
    ∧ (∀ p, p ∈ daily_summary toDT (user_data df user) →
        p.2 = (((user_data df user).filter (fun r => toDT r.Tanggal == some p.1)).map
          TxRow.Jumlah).sum) := by
  have hmapfst : (daily_summary toDT (user_data df user)).map Prod.fst =
      (((user_data df user).filterMap (fun r => toDT r.Tanggal)).dedup).insertionSort
        (· ≤ ·) := by
    simp [daily_summary, List.map_map, Function.comp_def, List.map_id']
  refine ⟨?_, ?_, ?_, ?_⟩
  · rw [hmapfst]
    exact List.sorted_insertionSort _ _
  · rw [hmapfst]
    exact ((List.perm_insertionSort _ _).nodup_iff).mpr (List.nodup_dedup _)
  · intro d
    rw [hmapfst, (List.perm_insertionSort _ _).mem_iff, List.mem_dedup, List.mem_filterMap]
  · intro p hp
    unfold daily_summary at hp
    obtain ⟨d, _, rfl⟩ := List.mem_map.mp hp
    rfl

/-- Claim C9 (confirmed against the spec model): the overspend signal fires
exactly when the budget is positive and the expense exceeds four fifths of
it; in particular it fires at budget 10000 with expense 8001 and stays
silent at budget 0 with expense 8001. -/
theorem C9_overspend :
    (∀ totalBudget expense : ℚ,
      overspend_signal totalBudget expense = true ↔
        0 < totalBudget ∧ (0.8 : ℚ) * totalBudget < expense)
    ∧ overspend_signal 10000 8001 = true
    ∧ overspend_signal 0 8001 = false := by
  refine ⟨fun tb e => ?_, by norm_num [overspend_signal], by norm_num [overspend_signal]⟩
  have h08 : (0.8 : ℚ) = 4 / 5 := by norm_num
  simp [overspend_signal, h08]

theorem total_budget_of_eq (pyFloat : Value → Option ℚ) (users : List UserRow)
    (user : String) (r : UserRow) (rest : List UserRow)
    (h : users.filter (fun q => q.Email == user) = r :: rest) :
    total_budget_of pyFloat users user =
      match pyFloat r.Total_Budget with
      | none => 0
      | some v => v := by
  unfold total_budget_of
  rw [h]
  rfl

/-- Claim C10 (confirmed): the dashboard budget is read from the first Users
row whose Email exactly equals the session user; with no such row, or a
stored value that does not parse as a number, it silently falls back to 0,
and otherwise it is the parsed stored value. -/
theorem C10_total_budget (pyFloat : Value → Option ℚ) (users : List UserRow)
    (user : String) :
    (users.filter (fun r => r.Email == user) = [] →
      total_budget_of pyFloat users user = 0)
    ∧ (∀ r rest, users.filter (fun r => r.Email == user) = r :: rest →
      r.Email = user
      ∧ (pyFloat r.Total_Budget = none → total_budget_of pyFloat users user = 0)
      ∧ (∀ q, pyFloat r.Total_Budget = some q →
          total_budget_of pyFloat users user = q)) := by
  refine ⟨fun h => ?_, fun r rest h => ⟨?_, fun h2 => ?_, fun q h2 => ?_⟩⟩
  · unfold total_budget_of
    rw [h]
    rfl
  · have hr : r ∈ users.filter (fun r => r.Email == user) := by
      rw [h]
      exact List.mem_cons_self _ _
    exact eq_of_beq (List.mem_filter.mp hr).2
  · rw [total_budget_of_eq pyFloat users user r rest h, h2]
  · rw [total_budget_of_eq pyFloat users user r rest h, h2]

/-- Witness for C10 at an empty Users table. -/
theorem C10_total_budget_witness :
    total_budget_of (fun _ => none) [] "u@x" = 0 :=
  (C10_total_budget (fun _ => none) [] "u@x").1 rfl

end PBD
